import Mathlib

/-!
# Verification of the ASL monitoring system

Shallow embedding of the Python sources of `asl-monitoring-system`:

* `src/incident_tracker.py` — `IncidentTracker` (incident lifecycle, persistence,
  history, statistics);
* `src/monitoring_engine.py` — `HealthCheckResult`, `ServiceMonitor.check_health`,
  `MonitoringEngine.check_all_services`;
* `src/modules/alert_manager.py` — `AlertManager` (threshold checks, cooldown);
* `src/slack_notifier.py` — `SlackNotifier._format_duration`.

Conventions of the embedding:

* Python `dict` used as a keyed store becomes an association list
  (`List (String × α)`) with create-or-replace insertion in insertion order,
  mirroring `dict` assignment semantics.
* `datetime.now()` becomes an explicit `DateTime` argument to each operation
  that reads the clock.
* Python floats (timestamps, response times, durations) are modelled as `ℚ`.
* The network probe in `check_health` is modelled as an explicit `ProbeOutcome`
  argument: the value of the HTTP request, or the exception it raised
  (`requests.exceptions.Timeout`, `requests.exceptions.ConnectionError`,
  any other `Exception`), which is exactly the case split of the `try/except`
  in the source.
-/

namespace ASL

/-! ## Association list helpers (Python `dict` used as a keyed store) -/

/-- `d.get(k)` / `d.get(k, default)` lookup in an association list. -/
def alist_lookup {α : Type} (l : List (String × α)) (k : String) : Option α :=
  match l with
  | [] => none
  | (k', v) :: rest => if k' = k then some v else alist_lookup rest k

/-- `d[k] = v`: create-or-replace, keeping insertion order (Python dict). -/
def alist_insert {α : Type} (l : List (String × α)) (k : String) (v : α) :
    List (String × α) :=
  match l with
  | [] => [(k, v)]
  | (k', v') :: rest =>
      if k' = k then (k', v) :: rest else (k', v') :: alist_insert rest k v

/-- `del d[k]`: remove a key from an association list. -/
def alist_erase {α : Type} (l : List (String × α)) (k : String) :
    List (String × α) :=
  match l with
  | [] => []
  | (k', v') :: rest =>
      if k' = k then rest else (k', v') :: alist_erase rest k

/-- `k in d`. -/
def alist_contains {α : Type} (l : List (String × α)) (k : String) : Bool :=
  (alist_lookup l k).isSome

theorem alist_lookup_insert_self {α : Type} (l : List (String × α)) (k : String)
    (v : α) : alist_lookup (alist_insert l k v) k = some v := by
  induction l with
  | nil => simp [alist_insert, alist_lookup]
  | cons hd tl ih =>
      obtain ⟨k', v'⟩ := hd
      by_cases h : k' = k
      · simp [alist_insert, alist_lookup, h]
      · simp [alist_insert, alist_lookup, h, ih]

theorem alist_lookup_insert_ne {α : Type} (l : List (String × α)) (k k' : String)
    (v : α) (h : k ≠ k') :
    alist_lookup (alist_insert l k v) k' = alist_lookup l k' := by
  induction l with
  | nil => simp [alist_insert, alist_lookup, h]
  | cons hd tl ih =>
      obtain ⟨k₀, v₀⟩ := hd
      by_cases h₀ : k₀ = k
      · subst h₀
        simp [alist_insert, alist_lookup, h]
      · simp [alist_insert, alist_lookup, h₀, ih]

/-! ## Date and time

`datetime` values, with the formatting the sources use:
`strftime('%Y%m%d_%H%M%S')` for incident ids and `isoformat()` for
timestamps.  Python `datetime` years lie in `1..9999`, so the four-digit
`%Y` field is faithful on the representable range. -/

structure DateTime where
  year : Nat
  month : Nat
  day : Nat
  hour : Nat
  minute : Nat
  second : Nat
  microsecond : Nat
deriving DecidableEq, Repr

/-- Two zero-padded decimal digits (`%m`, `%d`, `%H`, `%M`, `%S`). -/
def pad2 (n : Nat) : List Char :=
  [Nat.digitChar (n / 10 % 10), Nat.digitChar (n % 10)]

/-- Four zero-padded decimal digits (`%Y` on the `datetime` range `1..9999`). -/
def pad4 (n : Nat) : List Char :=
  [Nat.digitChar (n / 1000 % 10), Nat.digitChar (n / 100 % 10),
   Nat.digitChar (n / 10 % 10), Nat.digitChar (n % 10)]

/-- Six zero-padded decimal digits (the `.%f` microsecond field of
`isoformat`). -/
def pad6 (n : Nat) : List Char :=
  [Nat.digitChar (n / 100000 % 10), Nat.digitChar (n / 10000 % 10),
   Nat.digitChar (n / 1000 % 10), Nat.digitChar (n / 100 % 10),
   Nat.digitChar (n / 10 % 10), Nat.digitChar (n % 10)]

/-- `datetime.strftime('%Y%m%d_%H%M%S')` — the timestamp part of an incident
id.  Always 15 characters. -/
def DateTime.strftime_compact (t : DateTime) : String :=
  ⟨pad4 t.year ++ pad2 t.month ++ pad2 t.day ++ ['_'] ++
   pad2 t.hour ++ pad2 t.minute ++ pad2 t.second⟩

/-- `datetime.isoformat()`: `YYYY-MM-DDTHH:MM:SS[.ffffff]`, the microsecond
part present only when nonzero. -/
def DateTime.iso_format (t : DateTime) : String :=
  ⟨pad4 t.year ++ ['-'] ++ pad2 t.month ++ ['-'] ++ pad2 t.day ++ ['T'] ++
   pad2 t.hour ++ [':'] ++ pad2 t.minute ++ [':'] ++ pad2 t.second ++
   (if t.microsecond = 0 then [] else ['.'] ++ pad6 t.microsecond)⟩

/-- Days before January 1st of year `y` in the proleptic Gregorian calendar
(Python `datetime.toordinal` is this plus the days inside the year). -/
def days_before_year (y : Nat) : Nat :=
  365 * (y - 1) + (y - 1) / 4 - (y - 1) / 100 + (y - 1) / 400

/-- Gregorian leap-year test. -/
def is_leap (y : Nat) : Bool :=
  y % 4 = 0 && (y % 100 ≠ 0 || y % 400 = 0)

/-- Days in the months before month `m` of year `y`. -/
def days_before_month (y m : Nat) : Nat :=
  let base :=
    match m with
    | 1 => 0 | 2 => 31 | 3 => 59 | 4 => 90 | 5 => 120 | 6 => 151
    | 7 => 181 | 8 => 212 | 9 => 243 | 10 => 273 | 11 => 304 | _ => 334
  if 3 ≤ m ∧ is_leap y then base + 1 else base

/-- `datetime.toordinal()`: day number with 0001-01-01 as day 1. -/
def DateTime.to_ordinal (t : DateTime) : Nat :=
  days_before_year t.year + days_before_month t.year t.month + t.day

/-- Seconds (with fractional microseconds) from the calendar origin; the
difference of two of these is `(b - a).total_seconds()`. -/
def DateTime.total_seconds (t : DateTime) : ℚ :=
  (t.to_ordinal : ℚ) * 86400 + (t.hour : ℚ) * 3600 + (t.minute : ℚ) * 60 +
    (t.second : ℚ) + (t.microsecond : ℚ) / 1000000

/-- `(end_time - start_time).total_seconds()`. -/
def datetime_diff_seconds (end_t start_t : DateTime) : ℚ :=
  end_t.total_seconds - start_t.total_seconds

/-! ## IncidentTracker (`src/incident_tracker.py`)

An incident record is the JSON dict built in `start_incident` and mutated in
`end_incident`.  The free-form `details` / `resolution` dicts are modelled as
string-keyed string maps. -/

/-- The free-form `details` dict of an incident. -/
def Details : Type := List (String × String)

instance : DecidableEq Details := by
  unfold Details
  infer_instance

instance : Inhabited Details := ⟨([] : List (String × String))⟩

structure Incident where
  id : String
  service : String
  start_time : DateTime
  end_time : Option DateTime
  duration_seconds : Option ℚ
  details : Details
  status : String
  resolution : Option Details
deriving DecidableEq

/-- `f"{service_name}_{datetime.now().strftime('%Y%m%d_%H%M%S')}"`. -/
def incident_id (service_name : String) (now : DateTime) : String :=
  service_name ++ "_" ++ now.strftime_compact

/-- The incident dict built by `start_incident`. -/
def mk_incident (service_name : String) (now : DateTime) (details : Details) :
    Incident :=
  { id := incident_id service_name now
    service := service_name
    start_time := now
    end_time := none
    duration_seconds := none
    details := details
    status := "active"
    resolution := none }

/-- `IncidentTracker` state: the in-memory `active_incidents` dict plus the
persistence sink (`incidents_dir`), a keyed store of JSON files written by
`_save_incident` (`write = create-or-replace` under key `incident['id']`). -/
structure TrackerState where
  active_incidents : List (String × Incident)
  sink : List (String × Incident)
deriving DecidableEq

/-- The primitive observable effects of the tracker: updates of the in-memory
`active_incidents` dict, and writes to the persistence sink. -/
inductive PrimOp where
  | set_active (service_name : String) (incident : Incident)
  | del_active (service_name : String)
  | save_incident (incident : Incident)
deriving DecidableEq

/-- Apply one primitive effect to the tracker state.  `save_incident` is
`_save_incident`: write the record under the key derived from its id. -/
def apply_op (s : TrackerState) : PrimOp → TrackerState
  | .set_active name inc =>
      { s with active_incidents := alist_insert s.active_incidents name inc }
  | .del_active name =>
      { s with active_incidents := alist_erase s.active_incidents name }
  | .save_incident inc =>
      { s with sink := alist_insert s.sink inc.id inc }

def run_ops (s : TrackerState) : List PrimOp → TrackerState
  | [] => s
  | op :: rest => run_ops (apply_op s op) rest

/-- The effect sequence of `start_incident`, in program order of the source:
`self.active_incidents[service_name] = incident` then
`self._save_incident(incident)`. -/
def start_incident_ops (service_name : String) (now : DateTime)
    (details : Details) : List PrimOp :=
  let incident := mk_incident service_name now details
  [.set_active service_name incident, .save_incident incident]

/-- `start_incident(service_name, details)`; `now` is `datetime.now()` (the
source formats one `now` into the id and a second into `start_time`; the two
reads fall in the same call and are modelled as one value).  Returns the new
state and the returned incident id. -/
def start_incident (s : TrackerState) (service_name : String) (now : DateTime)
    (details : Details) : TrackerState × String :=
  (run_ops s (start_incident_ops service_name now details),
   incident_id service_name now)

/-- The resolved record built by `end_incident` from the active record. -/
def resolve_incident (incident : Incident) (now : DateTime)
    (resolution_details : Option Details) : Incident :=
  { incident with
      end_time := some now
      duration_seconds := some (datetime_diff_seconds now incident.start_time)
      status := "resolved"
      resolution :=
        match resolution_details with
        | some d => some d
        | none => incident.resolution }

/-- The effect sequence of `end_incident`, in program order of the source:
nothing if no incident is active, else `self._save_incident(incident)` then
`del self.active_incidents[service_name]`. -/
def end_incident_ops (s : TrackerState) (service_name : String)
    (now : DateTime) (resolution_details : Option Details) : List PrimOp :=
  match alist_lookup s.active_incidents service_name with
  | none => []
  | some incident =>
      let incident' := resolve_incident incident now resolution_details
      [.save_incident incident', .del_active service_name]

/-- `end_incident(service_name, resolution_details)`. -/
def end_incident (s : TrackerState) (service_name : String) (now : DateTime)
    (resolution_details : Option Details) : TrackerState :=
  run_ops s (end_incident_ops s service_name now resolution_details)

/-- `has_active_incident(service_name)`. -/
def has_active_incident (s : TrackerState) (service_name : String) : Bool :=
  alist_contains s.active_incidents service_name

/-- `get_active_incident(service_name)`. -/
def get_active_incident (s : TrackerState) (service_name : String) :
    Option Incident :=
  alist_lookup s.active_incidents service_name

/-! ### History and statistics -/

/-- Stable descending insertion by sort key (Python `list.sort(key=...,
reverse=True)` sorts by key descending, keeping the original order of equal
keys). -/
def insert_desc (key : Incident → String) (x : Incident) :
    List Incident → List Incident
  | [] => [x]
  | y :: ys => if key y ≤ key x then x :: y :: ys else y :: insert_desc key x ys

def sort_desc (key : Incident → String) : List Incident → List Incident
  | [] => []
  | x :: xs => insert_desc key x (sort_desc key xs)

/-- `get_incident_history(limit)`: read every record in the sink, sort by the
`start_time` string descending, return the first `limit`. -/
def get_incident_history (s : TrackerState) (limit : Nat) : List Incident :=
  (sort_desc (fun i => i.start_time.iso_format) (s.sink.map Prod.snd)).take limit

/-- `max` of a nonempty Python list (`[]` never reaches this in the source). -/
def list_max : List ℚ → ℚ
  | [] => 0
  | x :: xs => xs.foldl max x

/-- `min` of a nonempty Python list. -/
def list_min : List ℚ → ℚ
  | [] => 0
  | x :: xs => xs.foldl min x

/-- Python `round(x, 2)`: round to 2 decimal places, ties to even (the source
applies it to floats; ties-to-even on ℚ is the idealisation of that). -/
def round2 (x : ℚ) : ℚ :=
  let y := x * 100
  let f : ℤ := ⌊y⌋
  let r := y - (f : ℚ)
  let n : ℤ :=
    if r < 1 / 2 then f
    else if 1 / 2 < r then f + 1
    else if Even f then f else f + 1
  (n : ℚ) / 100

structure Statistics where
  total_incidents : Nat
  resolved_incidents : Nat
  active_incidents : Nat
  average_duration_seconds : ℚ
  max_duration_seconds : ℚ
  min_duration_seconds : ℚ
deriving DecidableEq

/-- `get_statistics()`. -/
def get_statistics (s : TrackerState) : Statistics :=
  let history := get_incident_history s 1000
  let total_incidents := history.length
  let resolved := history.filter (fun i => i.status = "resolved")
  let durations := resolved.map (fun i => i.duration_seconds.getD 0)
  let avg_duration : ℚ :=
    if resolved.isEmpty then 0 else durations.sum / (durations.length : ℚ)
  let max_duration : ℚ := if resolved.isEmpty then 0 else list_max durations
  let min_duration : ℚ := if resolved.isEmpty then 0 else list_min durations
  { total_incidents := total_incidents
    resolved_incidents := resolved.length
    active_incidents := s.active_incidents.length
    average_duration_seconds := round2 avg_duration
    max_duration_seconds := round2 max_duration
    min_duration_seconds := round2 min_duration }

/-! ## MonitoringEngine (`src/monitoring_engine.py`) -/

/-- `HealthCheckResult` (the `timestamp` field, `datetime.now()` at
construction, is carried as a `DateTime`). -/
structure HealthCheckResult where
  success : Bool
  status_code : Option Nat
  response_time : Option ℚ
  error : Option String
  timestamp : DateTime
deriving DecidableEq

/-- What the HTTP request in `check_health` did: returned a response with a
status code, or raised `requests.exceptions.Timeout`,
`requests.exceptions.ConnectionError`, or any other `Exception` — the exact
case split of the `try/except` ladder in the source.  Each case carries the
elapsed time `time.time() - start_time` observed at the handler. -/
inductive ProbeOutcome where
  | response (status_code : Nat) (response_time : ℚ)
  | timeout_exc (response_time : ℚ)
  | connection_error (msg : String) (response_time : ℚ)
  | other_exception (msg : String) (response_time : ℚ)
deriving DecidableEq

/-- `ServiceMonitor` (configuration plus mutable fields
`consecutive_failures` and `last_check_result`). -/
structure ServiceMonitor where
  name : String
  url : String
  method : String
  expected_status : Nat
  timeout_s : Nat
  critical : Bool
  consecutive_failures : Nat
  last_check_result : Option HealthCheckResult
deriving DecidableEq

/-- `ServiceMonitor.check_health()`: performs the probe (here: consumes its
outcome), builds a `HealthCheckResult` for every possible outcome, updates
`consecutive_failures` (reset to 0 on success, `+= 1` on every failure path)
and stores the result in `last_check_result`.  Returns the updated monitor
and the result. -/
def check_health (m : ServiceMonitor) (outcome : ProbeOutcome)
    (now : DateTime) : ServiceMonitor × HealthCheckResult :=
  match outcome with
  | .response status_code response_time =>
      if status_code = m.expected_status then
        let result : HealthCheckResult :=
          { success := true
            status_code := some status_code
            response_time := some response_time
            error := none
            timestamp := now }
        ({ m with consecutive_failures := 0, last_check_result := some result },
         result)
      else
        let result : HealthCheckResult :=
          { success := false
            status_code := some status_code
            response_time := some response_time
            error := some ("Status code " ++ toString status_code ++ " != " ++
              toString m.expected_status)
            timestamp := now }
        ({ m with consecutive_failures := m.consecutive_failures + 1,
                  last_check_result := some result },
         result)
  | .timeout_exc response_time =>
      let result : HealthCheckResult :=
        { success := false
          status_code := none
          response_time := some response_time
          error := some ("Timeout après " ++ toString m.timeout_s ++ "s")
          timestamp := now }
      ({ m with consecutive_failures := m.consecutive_failures + 1,
                last_check_result := some result },
       result)
  | .connection_error msg response_time =>
      let result : HealthCheckResult :=
        { success := false
          status_code := none
          response_time := some response_time
          error := some ("Erreur de connexion: " ++ msg)
          timestamp := now }
      ({ m with consecutive_failures := m.consecutive_failures + 1,
                last_check_result := some result },
       result)
  | .other_exception msg response_time =>
      let result : HealthCheckResult :=
        { success := false
          status_code := none
          response_time := some response_time
          error := some ("Erreur: " ++ msg)
          timestamp := now }
      ({ m with consecutive_failures := m.consecutive_failures + 1,
                last_check_result := some result },
       result)

/-- `MonitoringEngine.check_all_services()`: loop over the monitors in order,
run each `check_health`, store the result in the `results` dict under the
monitor's name.  The probe environment `probe` gives each monitor's outcome;
`now` its result timestamp.  Returns the updated monitors (the loop mutates
them) and the results dict. -/
def check_all_services_loop (monitors : List ServiceMonitor)
    (probe : ServiceMonitor → ProbeOutcome) (now : DateTime)
    (results : List (String × HealthCheckResult)) :
    List ServiceMonitor × List (String × HealthCheckResult) :=
  match monitors with
  | [] => ([], results)
  | m :: rest =>
      let (m', result) := check_health m (probe m) now
      let (rest', results') :=
        check_all_services_loop rest probe now
          (alist_insert results m.name result)
      (m' :: rest', results')

def check_all_services (monitors : List ServiceMonitor)
    (probe : ServiceMonitor → ProbeOutcome) (now : DateTime) :
    List ServiceMonitor × List (String × HealthCheckResult) :=
  check_all_services_loop monitors probe now []

/-- `MonitoringEngine.get_failing_services()`. -/
def get_failing_services (monitors : List ServiceMonitor)
    (failure_threshold : Nat) : List ServiceMonitor :=
  monitors.filter (fun m => failure_threshold ≤ m.consecutive_failures)

/-! ## AlertManager (`src/modules/alert_manager.py`)

The alert dicts produced by `check_thresholds` carry `type`, `severity`,
`metric`, `current_value`, `threshold` and a `message` built by float
interpolation; the `message` string (pure presentation, float `repr`) is
elided from the record.  `datetime.now().timestamp()` is the `now : ℚ`
argument; the source samples it once per `_should_send_alert` call, all
within one `check_thresholds` pass, modelled as one value per pass. -/

structure Alert where
  kind : String
  severity : String
  metric : String
  current_value : ℚ
  threshold : ℚ
deriving DecidableEq

/-- The `self.thresholds` dict. -/
structure Thresholds where
  cpu_usage_percent : ℚ
  memory_usage_percent : ℚ
  disk_usage_percent : ℚ
  swap_usage_percent : ℚ
deriving DecidableEq

/-- Mutable `AlertManager` state: `last_alert_time` (key → epoch seconds),
the cooldown (an `int` from the environment), the thresholds, and
`alert_history`. -/
structure AlertState where
  thresholds : Thresholds
  last_alert_time : List (String × ℚ)
  alert_cooldown : ℤ
  alert_history : List Alert
deriving DecidableEq

/-- `_should_send_alert(alert_key)`: send iff `now - last_time >= cooldown`
(last time defaulting to 0); records `now` only when sending.  Returns the
decision and the updated state. -/
def should_send_alert (st : AlertState) (alert_key : String) (now : ℚ) :
    Bool × AlertState :=
  if (st.alert_cooldown : ℚ) ≤
      now - (alist_lookup st.last_alert_time alert_key).getD 0 then
    (true,
     { st with last_alert_time := alist_insert st.last_alert_time alert_key now })
  else
    (false, st)

/-- A metric snapshot, as read by `check_thresholds`: each top-level section
may be absent (the `'cpu' in metrics and 'usage_percent' in metrics['cpu']`
guards). -/
structure DiskPartition where
  mountpoint : String
  usage_percent : ℚ
deriving DecidableEq

structure Metrics where
  cpu_usage_percent : Option ℚ
  memory_usage_percent : Option ℚ
  memory_swap_percent : Option ℚ
  disk_partitions : Option (List DiskPartition)
deriving DecidableEq

def mk_cpu_alert (v : ℚ) (thr : Thresholds) : Alert :=
  { kind := "cpu", severity := "warning", metric := "CPU Usage",
    current_value := v, threshold := thr.cpu_usage_percent }

def mk_memory_alert (v : ℚ) (thr : Thresholds) : Alert :=
  { kind := "memory", severity := "warning", metric := "Memory Usage",
    current_value := v, threshold := thr.memory_usage_percent }

def mk_swap_alert (v : ℚ) (thr : Thresholds) : Alert :=
  { kind := "swap", severity := "warning", metric := "Swap Usage",
    current_value := v, threshold := thr.swap_usage_percent }

def mk_disk_alert (p : DiskPartition) (thr : Thresholds) : Alert :=
  { kind := "disk", severity := "warning",
    metric := "Disk Usage (" ++ p.mountpoint ++ ")",
    current_value := p.usage_percent, threshold := thr.disk_usage_percent }

/-- The common shape of the cpu / memory / swap blocks of
`check_thresholds`: if the metric value is present and strictly above the
threshold, consult `_should_send_alert` for the block's cooldown key and emit
the alert when it allows. -/
def check_metric_block (st : AlertState) (value : Option ℚ) (threshold : ℚ)
    (key : String) (make : ℚ → Alert) (now : ℚ) : List Alert × AlertState :=
  match value with
  | none => ([], st)
  | some v =>
      if threshold < v then
        let r := should_send_alert st key now
        (if r.1 then [make v] else [], r.2)
      else ([], st)

/-- The CPU block of `check_thresholds`. -/
def check_cpu (st : AlertState) (m : Metrics) (now : ℚ) :
    List Alert × AlertState :=
  check_metric_block st m.cpu_usage_percent st.thresholds.cpu_usage_percent
    "cpu" (fun v => mk_cpu_alert v st.thresholds) now

/-- The memory block of `check_thresholds`. -/
def check_memory (st : AlertState) (m : Metrics) (now : ℚ) :
    List Alert × AlertState :=
  check_metric_block st m.memory_usage_percent
    st.thresholds.memory_usage_percent "memory"
    (fun v => mk_memory_alert v st.thresholds) now

/-- The swap block of `check_thresholds`. -/
def check_swap (st : AlertState) (m : Metrics) (now : ℚ) :
    List Alert × AlertState :=
  check_metric_block st m.memory_swap_percent st.thresholds.swap_usage_percent
    "swap" (fun v => mk_swap_alert v st.thresholds) now

/-- The cooldown key of a disk alert: `f"disk_{partition['mountpoint']}"`. -/
def disk_key (mountpoint : String) : String :=
  "disk_" ++ mountpoint

/-- The disk block of `check_thresholds`: loop over the partitions, one
cooldown key per mountpoint. -/
def check_disks (st : AlertState) (parts : List DiskPartition) (now : ℚ) :
    List Alert × AlertState :=
  match parts with
  | [] => ([], st)
  | p :: rest =>
      if st.thresholds.disk_usage_percent < p.usage_percent then
        let r := should_send_alert st (disk_key p.mountpoint) now
        let rest_r := check_disks r.2 rest now
        ((if r.1 then [mk_disk_alert p st.thresholds] else []) ++ rest_r.1,
         rest_r.2)
      else
        check_disks st rest now

/-- `_send_alert` applied to each triggered alert: append to
`alert_history`, trimmed to the last 1000 entries (the Slack post and the
log line are I/O, outside the state). -/
def send_alert (st : AlertState) (a : Alert) : AlertState :=
  let history := st.alert_history ++ [a]
  { st with
      alert_history :=
        if 1000 < history.length then history.drop (history.length - 1000)
        else history }

/-- `check_thresholds(metrics)`: the four blocks in source order, then
`_send_alert` over the collected alerts.  Returns the alert list (the
function's return value) and the final state. -/
def check_thresholds (st : AlertState) (m : Metrics) (now : ℚ) :
    List Alert × AlertState :=
  let r₁ := check_cpu st m now
  let r₂ := check_memory r₁.2 m now
  let r₃ := check_swap r₂.2 m now
  let r₄ := check_disks r₃.2 (m.disk_partitions.getD []) now
  let alerts := r₁.1 ++ r₂.1 ++ r₃.1 ++ r₄.1
  (alerts, alerts.foldl send_alert r₄.2)

/-! ## SlackNotifier (`src/slack_notifier.py`)

`_format_duration(seconds)` takes a float.  Python `int(x)` truncates toward
zero and `x // y` is floor division; both are modelled on ℚ. -/

/-- Python `int(x)`: truncation toward zero. -/
def py_int (x : ℚ) : ℤ :=
  if x < 0 then ⌈x⌉ else ⌊x⌋

/-- Python float `//`: floor division. -/
def py_floordiv (x y : ℚ) : ℚ :=
  (⌊x / y⌋ : ℚ)

/-- Python float `%`: `x - y * (x // y)`. -/
def py_mod (x y : ℚ) : ℚ :=
  x - y * py_floordiv x y

/-- `SlackNotifier._format_duration(seconds)`. -/
def format_duration (seconds : ℚ) : String :=
  if seconds < 60 then
    toString (py_int seconds) ++ "s"
  else if seconds < 3600 then
    let minutes := py_int (py_floordiv seconds 60)
    let secs := py_int (py_mod seconds 60)
    toString minutes ++ "m " ++ toString secs ++ "s"
  else
    let hours := py_int (py_floordiv seconds 3600)
    let minutes := py_int (py_floordiv (py_mod seconds 3600) 60)
    toString hours ++ "h " ++ toString minutes ++ "m"

/-! ## General helper lemmas -/

theorem string_eq_of_data_eq {s t : String} (h : s.data = t.data) : s = t := by
  cases s
  cases t
  exact congrArg String.mk h

theorem string_append_data (s t : String) :
    (s ++ t).data = s.data ++ t.data :=
  String.data_append s t

/-- Cancel a common literal context around a string:
`pre ++ x ++ suf = pre ++ y ++ suf → x = y`. -/
theorem string_sandwich_cancel (pre suf x y : String)
    (h : pre ++ x ++ suf = pre ++ y ++ suf) : x = y := by
  have hd := congrArg String.data h
  simp only [string_append_data, List.append_assoc] at hd
  exact string_eq_of_data_eq
    (List.append_cancel_right (List.append_cancel_left hd))

theorem string_append_left_cancel {pre x y : String}
    (h : pre ++ x = pre ++ y) : x = y := by
  have hd := congrArg String.data h
  simp only [string_append_data] at hd
  exact string_eq_of_data_eq (List.append_cancel_left hd)

/-! ## Theorems about `ServiceMonitor.check_health` -/

/-- C3: a single `check_health` call sets `consecutive_failures` to exactly 0
when the produced result is a success, and to exactly the prior value plus 1
when it is a failure, for every monitor and every probe outcome. -/
theorem check_health_consecutive_failures (m : ServiceMonitor)
    (outcome : ProbeOutcome) (now : DateTime) :
    (check_health m outcome now).1.consecutive_failures =
      if (check_health m outcome now).2.success then 0
      else m.consecutive_failures + 1 := by
  cases outcome with
  | response status_code response_time =>
      by_cases h : status_code = m.expected_status
      · simp [check_health, h]
      · simp [check_health, h]
  | timeout_exc response_time => simp [check_health]
  | connection_error msg response_time => simp [check_health]
  | other_exception msg response_time => simp [check_health]

/-- C4: after any `check_health` call (hence whenever at least one check has
run), `consecutive_failures = 0` holds if and only if the stored most recent
check result is a success. -/
theorem check_health_zero_iff_last_success (m : ServiceMonitor)
    (outcome : ProbeOutcome) (now : DateTime) (r : HealthCheckResult)
    (h : (check_health m outcome now).1.last_check_result = some r) :
    (check_health m outcome now).1.consecutive_failures = 0 ↔
      r.success = true := by
  cases outcome with
  | response status_code response_time =>
      by_cases hsc : status_code = m.expected_status
      · simp only [check_health, if_pos hsc] at h ⊢
        have hr := Option.some.inj h
        subst hr
        simp
      · simp only [check_health, if_neg hsc] at h ⊢
        have hr := Option.some.inj h
        subst hr
        simp
  | timeout_exc response_time =>
      simp only [check_health] at h ⊢
      have hr := Option.some.inj h
      subst hr
      simp
  | connection_error msg response_time =>
      simp only [check_health] at h ⊢
      have hr := Option.some.inj h
      subst hr
      simp
  | other_exception msg response_time =>
      simp only [check_health] at h ⊢
      have hr := Option.some.inj h
      subst hr
      simp

/-- A monitor and time used for concrete witnesses. -/
def sample_monitor : ServiceMonitor :=
  { name := "api"
    url := "http://localhost:8000/health"
    method := "GET"
    expected_status := 200
    timeout_s := 10
    critical := true
    consecutive_failures := 3
    last_check_result := none }

def sample_now : DateTime :=
  ⟨2024, 5, 17, 12, 30, 45, 0⟩

/-- Witness for C4: instantiated on a concrete monitor with a successful
probe. -/
theorem check_health_zero_iff_last_success_witness :
    (check_health sample_monitor (.response 200 1) sample_now).1.consecutive_failures
        = 0 ↔
      ((check_health sample_monitor (.response 200 1) sample_now).2.success
        = true) :=
  check_health_zero_iff_last_success sample_monitor (.response 200 1)
    sample_now (check_health sample_monitor (.response 200 1) sample_now).2
    (by simp [check_health, sample_monitor])

/-! ## Theorems about `IncidentTracker` transition ordering (C1) -/

/-- Scans an effect sequence in program order and checks that every update of
the in-memory `active_incidents` dict is preceded by some sink write;
`seen_save` records whether a write has occurred yet. -/
def persisted_before_mem_updates (seen_save : Bool) : List PrimOp → Bool
  | [] => true
  | .save_incident _ :: rest => persisted_before_mem_updates true rest
  | .set_active _ _ :: rest =>
      seen_save && persisted_before_mem_updates seen_save rest
  | .del_active _ :: rest =>
      seen_save && persisted_before_mem_updates seen_save rest

def no_details : Details := []

/-- Counterexample to C1: in `start_incident` the in-memory
`active_incidents` assignment precedes the `_save_incident` write, so the
open transition is not durably written before the in-memory update. -/
theorem claim1_counterexample :
    persisted_before_mem_updates false
      (start_incident_ops "api" sample_now no_details) = false := by
  rfl

/-- C1 (amended): `end_incident` writes the resolved record to the sink
before updating the in-memory active set, but `start_incident` updates the
in-memory active set first and writes the record to the sink second. -/
theorem claim1_amended (s : TrackerState) (service_name : String)
    (now : DateTime) (resolution_details : Option Details) (d : Details) :
    persisted_before_mem_updates false
        (end_incident_ops s service_name now resolution_details) = true ∧
    persisted_before_mem_updates false
        (start_incident_ops service_name now d) = false := by
  constructor
  · unfold end_incident_ops
    cases alist_lookup s.active_incidents service_name with
    | none => rfl
    | some incident => rfl
  · rfl

/-! ## Theorems about double `start_incident` (C2) -/

/-- `alist_insert` preserves distinctness of keys, hence at most one active
incident per target. -/
theorem alist_insert_mem_keys {α : Type} (l : List (String × α))
    (k k' : String) (v : α) :
    k' ∈ (alist_insert l k v).map Prod.fst ↔
      k' ∈ l.map Prod.fst ∨ k' = k := by
  induction l with
  | nil => simp [alist_insert]
  | cons hd tl ih =>
      obtain ⟨k₀, v₀⟩ := hd
      by_cases h₀ : k₀ = k
      · have hstep : alist_insert ((k₀, v₀) :: tl) k v = (k₀, v) :: tl := by
          simp [alist_insert, h₀]
        rw [hstep]
        subst h₀
        simp only [List.map_cons, List.mem_cons]
        tauto
      · have hstep : alist_insert ((k₀, v₀) :: tl) k v =
            (k₀, v₀) :: alist_insert tl k v := by
          simp [alist_insert, h₀]
        rw [hstep]
        simp only [List.map_cons, List.mem_cons, ih]
        tauto

theorem alist_insert_keys_nodup {α : Type} (l : List (String × α))
    (k : String) (v : α) (h : (l.map Prod.fst).Nodup) :
    ((alist_insert l k v).map Prod.fst).Nodup := by
  induction l with
  | nil => simp [alist_insert]
  | cons hd tl ih =>
      obtain ⟨k₀, v₀⟩ := hd
      simp only [List.map_cons, List.nodup_cons] at h
      by_cases h₀ : k₀ = k
      · have hstep : alist_insert ((k₀, v₀) :: tl) k v = (k₀, v) :: tl := by
          simp [alist_insert, h₀]
        rw [hstep]
        simp only [List.map_cons, List.nodup_cons]
        exact h
      · have hstep : alist_insert ((k₀, v₀) :: tl) k v =
            (k₀, v₀) :: alist_insert tl k v := by
          simp [alist_insert, h₀]
        rw [hstep]
        simp only [List.map_cons, List.nodup_cons]
        refine ⟨?_, ih h.2⟩
        rw [alist_insert_mem_keys]
        rintro (hmem | rfl)
        · exact h.1 hmem
        · exact h₀ rfl

def incident_old : Incident := mk_incident "api" sample_now no_details

def time_later : DateTime := ⟨2024, 5, 17, 12, 31, 0, 0⟩

/-- A tracker state in which target `api` already has an active incident,
with that incident persisted. -/
def state_with_active : TrackerState :=
  { active_incidents := [("api", incident_old)]
    sink := [(incident_old.id, incident_old)] }

/-- Counterexample to C2: calling `start_incident` while an incident is
already active for the target is not a no-op — the in-memory active incident
is replaced by a fresh one, and a second record appears in the sink. -/
theorem claim2_counterexample :
    get_active_incident (start_incident state_with_active "api" time_later
        no_details).1 "api" ≠ some incident_old ∧
    (start_incident state_with_active "api" time_later no_details).1.sink.length
      = 2 := by
  constructor
  · decide
  · rfl

/-- C2 (amended): `start_incident` on a target with an active incident
raises no exception and keeps at most one active incident per target, but it
is not a no-op: the in-memory active incident is replaced by a freshly
created one and that new record is persisted to the sink. -/
theorem claim2_amended (s : TrackerState) (service_name : String)
    (now : DateTime) (d : Details)
    (h : has_active_incident s service_name = true) :
    (∃ old_incident, get_active_incident s service_name = some old_incident) ∧
    get_active_incident (start_incident s service_name now d).1 service_name =
        some (mk_incident service_name now d) ∧
    alist_lookup (start_incident s service_name now d).1.sink
        (incident_id service_name now) = some (mk_incident service_name now d) ∧
    ((s.active_incidents.map Prod.fst).Nodup →
      ((start_incident s service_name now d).1.active_incidents.map
          Prod.fst).Nodup) := by
  refine ⟨?_, ?_, ?_, ?_⟩
  · simp only [has_active_incident, alist_contains, Option.isSome_iff_exists]
      at h
    obtain ⟨old_incident, hold⟩ := h
    exact ⟨old_incident, hold⟩
  · simp [start_incident, start_incident_ops, run_ops, apply_op,
      get_active_incident, alist_lookup_insert_self]
  · simp only [start_incident, start_incident_ops, run_ops, apply_op]
    have : (mk_incident service_name now d).id = incident_id service_name now :=
      rfl
    rw [this]
    exact alist_lookup_insert_self _ _ _
  · intro hnodup
    simp only [start_incident, start_incident_ops, run_ops, apply_op]
    exact alist_insert_keys_nodup _ _ _ hnodup

/-- Witness for C2 (amended) at the concrete already-active state. -/
theorem claim2_amended_witness :
    (∃ old_incident,
      get_active_incident state_with_active "api" = some old_incident) ∧
    get_active_incident (start_incident state_with_active "api" time_later
        no_details).1 "api" =
        some (mk_incident "api" time_later no_details) ∧
    alist_lookup (start_incident state_with_active "api" time_later
        no_details).1.sink (incident_id "api" time_later) =
        some (mk_incident "api" time_later no_details) ∧
    ((state_with_active.active_incidents.map Prod.fst).Nodup →
      ((start_incident state_with_active "api" time_later
          no_details).1.active_incidents.map Prod.fst).Nodup) :=
  claim2_amended state_with_active "api" time_later no_details (by decide)

/-! ## Theorems about incident id uniqueness (C9) -/

def time_same_second : DateTime := ⟨2024, 5, 17, 12, 30, 45, 500000⟩

/-- Counterexample to C9: two distinct incidents for the same target whose
start times differ (by half a second) get the same id, because the id
timestamp is truncated to whole seconds by `%Y%m%d_%H%M%S`. -/
theorem claim9_counterexample :
    mk_incident "api" sample_now no_details ≠
        mk_incident "api" time_same_second no_details ∧
    (mk_incident "api" sample_now no_details).id =
        (mk_incident "api" time_same_second no_details).id := by
  constructor
  · decide
  · rfl

/-- C9 (amended): two incident ids coincide exactly when the target names
coincide and the start times agree at second granularity (same
`%Y%m%d_%H%M%S` rendering); in particular ids are distinct across distinct
targets and across starts in distinct calendar seconds. -/
theorem claim9_amended (n₁ n₂ : String) (t₁ t₂ : DateTime) :
    incident_id n₁ t₁ = incident_id n₂ t₂ ↔
      n₁ = n₂ ∧ t₁.strftime_compact = t₂.strftime_compact := by
  constructor
  · intro h
    have hd := congrArg String.data h
    simp only [incident_id, string_append_data, List.append_assoc] at hd
    have hlen : ("_".data ++ (DateTime.strftime_compact t₁).data).length =
        ("_".data ++ (DateTime.strftime_compact t₂).data).length := by
      simp [DateTime.strftime_compact, pad4, pad2]
    have hinj := List.append_inj' hd hlen
    refine ⟨string_eq_of_data_eq hinj.1, string_eq_of_data_eq ?_⟩
    exact List.append_cancel_left hinj.2
  · rintro ⟨rfl, hf⟩
    simp [incident_id, hf]

/-! ## Theorems about `get_statistics` (C10) -/

theorem round2_zero : round2 0 = 0 := by
  norm_num [round2]

/-- C10: `get_statistics` aggregates over at most the 1000 most recent
persisted incidents, so `total_incidents` never exceeds 1000; and when the
considered history holds no resolved incident, the average, max and min
durations are all reported as 0. -/
theorem claim10 (s : TrackerState) :
    (get_statistics s).total_incidents ≤ 1000 ∧
    ((get_incident_history s 1000).filter (fun i => i.status = "resolved") = []
      → (get_statistics s).average_duration_seconds = 0 ∧
        (get_statistics s).max_duration_seconds = 0 ∧
        (get_statistics s).min_duration_seconds = 0) := by
  constructor
  · show (get_incident_history s 1000).length ≤ 1000
    unfold get_incident_history
    exact List.length_take_le _ _
  · intro hempty
    refine ⟨?_, ?_, ?_⟩ <;>
      simp [get_statistics, hempty, round2_zero]

/-- Witness for C10 at the empty tracker state. -/
theorem claim10_witness :
    (get_statistics ⟨[], []⟩).average_duration_seconds = 0 ∧
    (get_statistics ⟨[], []⟩).max_duration_seconds = 0 ∧
    (get_statistics ⟨[], []⟩).min_duration_seconds = 0 :=
  (claim10 ⟨[], []⟩).2 rfl

/-! ## Theorems about probe totality (C7) -/

/-- What the returned `HealthCheckResult` must look like for each probe
outcome: success exactly on a response with the expected status code, the
observed status code and elapsed time recorded, and an error message present
on every failure path (matching the four branches of `check_health`). -/
def result_encodes (expected : Nat) (o : ProbeOutcome)
    (r : HealthCheckResult) : Prop :=
  match o with
  | .response sc rt =>
      if sc = expected then
        r.success = true ∧ r.status_code = some sc ∧
          r.response_time = some rt ∧ r.error = none
      else
        r.success = false ∧ r.status_code = some sc ∧
          r.response_time = some rt ∧ r.error.isSome = true
  | .timeout_exc rt =>
      r.success = false ∧ r.status_code = none ∧
        r.response_time = some rt ∧ r.error.isSome = true
  | .connection_error _ rt =>
      r.success = false ∧ r.status_code = none ∧
        r.response_time = some rt ∧ r.error.isSome = true
  | .other_exception _ rt =>
      r.success = false ∧ r.status_code = none ∧
        r.response_time = some rt ∧ r.error.isSome = true

theorem alist_lookup_insert_isSome {α : Type} (l : List (String × α))
    (k n : String) (v : α) (h : (alist_lookup l n).isSome = true) :
    (alist_lookup (alist_insert l k v) n).isSome = true := by
  by_cases hk : k = n
  · subst hk
    rw [alist_lookup_insert_self]
    rfl
  · rw [alist_lookup_insert_ne _ _ _ _ hk]
    exact h

theorem check_all_services_loop_lookup_mono (ms : List ServiceMonitor)
    (probe : ServiceMonitor → ProbeOutcome) (now : DateTime)
    (acc : List (String × HealthCheckResult)) (n : String)
    (h : (alist_lookup acc n).isSome = true) :
    (alist_lookup (check_all_services_loop ms probe now acc).2 n).isSome
      = true := by
  induction ms generalizing acc with
  | nil => exact h
  | cons m rest ih =>
      simp only [check_all_services_loop]
      exact ih _ (alist_lookup_insert_isSome _ _ _ _ h)

theorem check_all_services_loop_lookup_mem (ms : List ServiceMonitor)
    (probe : ServiceMonitor → ProbeOutcome) (now : DateTime)
    (acc : List (String × HealthCheckResult)) (m : ServiceMonitor)
    (h : m ∈ ms) :
    (alist_lookup (check_all_services_loop ms probe now acc).2 m.name).isSome
      = true := by
  induction ms generalizing acc with
  | nil => cases h
  | cons m₀ rest ih =>
      rcases List.mem_cons.mp h with rfl | hmem
      · simp only [check_all_services_loop]
        apply check_all_services_loop_lookup_mono
        rw [alist_lookup_insert_self]
        rfl
      · simp only [check_all_services_loop]
        exact ih _ hmem

/-- C7: `check_health` never raises — every probe outcome (matching status,
mismatched status, timeout, connection error, any other exception) is encoded
in the returned `HealthCheckResult` — and `check_all_services` produces a
stored result for every configured monitor, so one target's failure never
deprives another target of its result. -/
theorem claim7 (monitors : List ServiceMonitor)
    (probe : ServiceMonitor → ProbeOutcome) (now : DateTime) :
    (∀ (m : ServiceMonitor) (o : ProbeOutcome),
      result_encodes m.expected_status o (check_health m o now).2) ∧
    (∀ m ∈ monitors,
      (alist_lookup (check_all_services monitors probe now).2 m.name).isSome
        = true) := by
  constructor
  · intro m o
    cases o with
    | response sc rt =>
        by_cases hsc : sc = m.expected_status
        · simp [check_health, result_encodes, hsc]
        · simp [check_health, result_encodes, hsc]
    | timeout_exc rt => simp [check_health, result_encodes]
    | connection_error msg rt => simp [check_health, result_encodes]
    | other_exception msg rt => simp [check_health, result_encodes]
  · intro m hm
    exact check_all_services_loop_lookup_mem _ _ _ _ _ hm

def sample_probe : ServiceMonitor → ProbeOutcome :=
  fun _ => .other_exception "boom" 2

/-- Witness for C7: the single configured monitor gets a stored result even
when its probe raises an arbitrary exception. -/
theorem claim7_witness :
    (alist_lookup (check_all_services [sample_monitor] sample_probe
        sample_now).2 sample_monitor.name).isSome = true :=
  (claim7 [sample_monitor] sample_probe sample_now).2 sample_monitor
    (List.mem_singleton.mpr rfl)

/-! ## Theorems about `_format_duration` (C8) -/

theorem py_int_of_nonneg (q : ℚ) (hq : 0 ≤ q) : py_int q = ⌊q⌋ := by
  unfold py_int
  rw [if_neg (not_lt.mpr hq)]

theorem py_int_intCast (z : ℤ) : py_int (z : ℚ) = z := by
  unfold py_int
  split
  · exact Int.ceil_intCast z
  · exact Int.floor_intCast z

theorem py_int_py_floordiv (a b : ℚ) : py_int (py_floordiv a b) = ⌊a / b⌋ := by
  unfold py_floordiv
  exact py_int_intCast _

theorem py_mod_nonneg (a b : ℚ) (hb : 0 < b) : 0 ≤ py_mod a b := by
  have h := Int.sub_floor_div_mul_nonneg a hb
  unfold py_mod py_floordiv
  linarith

theorem rat_floor_div_nat (q : ℚ) (n : ℕ) (hq : 0 ≤ q) :
    ⌊q / (n : ℚ)⌋ = ⌊q⌋ / (n : ℤ) := by
  have h1 : (0:ℚ) ≤ q / n := div_nonneg hq (Nat.cast_nonneg n)
  rw [← Int.natCast_floor_eq_floor h1, ← Int.natCast_floor_eq_floor hq,
    Nat.floor_div_nat]
  exact_mod_cast Int.ofNat_ediv _ n

theorem floor_div_60 (q : ℚ) (hq : 0 ≤ q) : ⌊q / 60⌋ = ⌊q⌋ / 60 := by
  have h := rat_floor_div_nat q 60 hq
  push_cast at h
  exact h

theorem floor_div_3600 (q : ℚ) (hq : 0 ≤ q) : ⌊q / 3600⌋ = ⌊q⌋ / 3600 := by
  have h := rat_floor_div_nat q 3600 hq
  push_cast at h
  exact h

theorem floor_py_mod_60 (q : ℚ) (hq : 0 ≤ q) : ⌊py_mod q 60⌋ = ⌊q⌋ % 60 := by
  have hrw : py_mod q 60 = q - ((60 * ⌊q / 60⌋ : ℤ) : ℚ) := by
    unfold py_mod py_floordiv
    push_cast
    ring
  rw [hrw, Int.floor_sub_int, floor_div_60 q hq, Int.emod_def]

theorem floor_py_mod_3600_div_60 (q : ℚ) (hq : 0 ≤ q) :
    ⌊py_mod q 3600 / 60⌋ = ⌊q⌋ / 60 % 60 := by
  have hrw : py_mod q 3600 / 60 = q / 60 - ((60 * ⌊q / 3600⌋ : ℤ) : ℚ) := by
    unfold py_mod py_floordiv
    push_cast
    ring
  have h3600 : ⌊q / 3600⌋ = ⌊q / 60⌋ / 60 := by
    have hq60 : (0:ℚ) ≤ q / 60 := by positivity
    have heq : q / 3600 = q / 60 / 60 := by ring
    rw [heq, floor_div_60 _ hq60]
  rw [hrw, Int.floor_sub_int, h3600, floor_div_60 q hq, Int.emod_def]

/-- C8: `_format_duration` uses floor truncation at each unit boundary —
whole seconds below one minute, minutes and leftover seconds below one hour,
hours and leftover minutes from one hour on — and in particular maps 30 to
`30s`, 90 to `1m 30s` and 3665 to `1h 1m`. -/
theorem claim8 :
    (∀ q : ℚ, 0 ≤ q →
      ((q < 60 → format_duration q = toString ⌊q⌋ ++ "s") ∧
       (60 ≤ q → q < 3600 →
         format_duration q =
           toString (⌊q⌋ / 60) ++ "m " ++ toString (⌊q⌋ % 60) ++ "s") ∧
       (3600 ≤ q →
         format_duration q =
           toString (⌊q⌋ / 3600) ++ "h " ++ toString (⌊q⌋ / 60 % 60) ++ "m"))) ∧
    format_duration 30 = "30s" ∧
    format_duration 90 = "1m 30s" ∧
    format_duration 3665 = "1h 1m" := by
  have hgen : ∀ q : ℚ, 0 ≤ q →
      ((q < 60 → format_duration q = toString ⌊q⌋ ++ "s") ∧
       (60 ≤ q → q < 3600 →
         format_duration q =
           toString (⌊q⌋ / 60) ++ "m " ++ toString (⌊q⌋ % 60) ++ "s") ∧
       (3600 ≤ q →
         format_duration q =
           toString (⌊q⌋ / 3600) ++ "h " ++ toString (⌊q⌋ / 60 % 60) ++ "m")) := by
    intro q hq
    refine ⟨?_, ?_, ?_⟩
    · intro hlt
      unfold format_duration
      rw [if_pos hlt, py_int_of_nonneg q hq]
    · intro hge hlt
      unfold format_duration
      rw [if_neg (not_lt.mpr hge), if_pos hlt, py_int_py_floordiv,
        floor_div_60 q hq,
        py_int_of_nonneg _ (py_mod_nonneg q 60 (by norm_num)),
        floor_py_mod_60 q hq]
    · intro hge
      unfold format_duration
      have h60 : ¬ q < 60 := not_lt.mpr (by linarith)
      have h3600 : ¬ q < 3600 := not_lt.mpr hge
      rw [if_neg h60, if_neg h3600, py_int_py_floordiv, floor_div_3600 q hq,
        py_int_py_floordiv, floor_py_mod_3600_div_60 q hq]
  refine ⟨hgen, ?_, ?_, ?_⟩
  · have h := (hgen 30 (by norm_num)).1 (by norm_num)
    rw [h]
    norm_num
    decide
  · have h := (hgen 90 (by norm_num)).2.1 (by norm_num) (by norm_num)
    rw [h]
    norm_num
    decide
  · have h := (hgen 3665 (by norm_num)).2.2 (by norm_num)
    rw [h]
    norm_num
    decide

/-- Witness for C8: the general clause applied at 125 seconds. -/
theorem claim8_witness :
    format_duration 125 =
      toString (⌊(125:ℚ)⌋ / 60) ++ "m " ++ toString (⌊(125:ℚ)⌋ % 60) ++ "s" :=
  (claim8.1 125 (by norm_num)).2.1 (by norm_num) (by norm_num)

/-! ## Theorems about the alert cooldown (C5) -/

/-- A sequence of triggering conditions for one key, fed one by one to
`_should_send_alert`: the decisions in order, and the final state. -/
def run_triggers (st : AlertState) (key : String) : List ℚ → List Bool × AlertState
  | [] => ([], st)
  | t :: ts =>
      let (b, st') := should_send_alert st key t
      let (bs, st'') := run_triggers st' key ts
      (b :: bs, st'')

theorem should_send_alert_false (st : AlertState) (key : String) (now : ℚ)
    (h : ¬ (st.alert_cooldown : ℚ) ≤
        now - ((alist_lookup st.last_alert_time key).getD 0)) :
    should_send_alert st key now = (false, st) := by
  unfold should_send_alert
  rw [if_neg h]

theorem run_triggers_all_suppressed (st : AlertState) (key : String) (T : ℚ)
    (ts : List ℚ) (hlook : alist_lookup st.last_alert_time key = some T)
    (hwin : ∀ t ∈ ts, t - T < (st.alert_cooldown : ℚ)) :
    run_triggers st key ts = (ts.map (fun _ => false), st) := by
  induction ts with
  | nil => rfl
  | cons t ts ih =>
      have hc : ¬ (st.alert_cooldown : ℚ) ≤
          t - ((alist_lookup st.last_alert_time key).getD 0) := by
        rw [hlook]
        exact not_le.mpr (by simpa using hwin t (List.mem_cons_self t ts))
      simp only [run_triggers, should_send_alert_false st key t hc,
        ih (fun u hu => hwin u (List.mem_cons_of_mem t hu)), List.map_cons]

/-- C5: once an alert for a key is dispatched at time `T`, every triggering
condition for that key strictly inside the cooldown window is suppressed and
leaves the cooldown state untouched (so exactly the one send happens in the
window), and a triggering condition at time `t₂` is dispatched again exactly
when `t₂ - T` has reached the configured cooldown. -/
theorem claim5 (st : AlertState) (key : String) (T : ℚ) (ts : List ℚ)
    (t₂ : ℚ) (st₁ : AlertState)
    (hsend : should_send_alert st key T = (true, st₁))
    (hwin : ∀ t ∈ ts, t - T < (st.alert_cooldown : ℚ)) :
    run_triggers st₁ key ts = (ts.map (fun _ => false), st₁) ∧
    ((should_send_alert st₁ key t₂).1 = true ↔
      (st.alert_cooldown : ℚ) ≤ t₂ - T) := by
  have hst₁ : st₁ =
      { st with last_alert_time := alist_insert st.last_alert_time key T } := by
    unfold should_send_alert at hsend
    split at hsend
    · injection hsend with h1 h2
      exact h2.symm
    · injection hsend with h1 h2
      cases h1
  have hlook : alist_lookup st₁.last_alert_time key = some T := by
    rw [hst₁]
    exact alist_lookup_insert_self _ _ _
  have hcd : st₁.alert_cooldown = st.alert_cooldown := by
    rw [hst₁]
  constructor
  · exact run_triggers_all_suppressed st₁ key T ts hlook
      (fun t ht => hcd ▸ hwin t ht)
  · unfold should_send_alert
    rw [hlook, hcd]
    by_cases h : (st.alert_cooldown : ℚ) ≤ t₂ - T
    · simp [h]
    · simp [h]

def sample_thresholds : Thresholds :=
  { cpu_usage_percent := 80
    memory_usage_percent := 85
    disk_usage_percent := 90
    swap_usage_percent := 75 }

/-- The manager's initial state with default thresholds and 300s cooldown. -/
def sample_alert_state : AlertState :=
  { thresholds := sample_thresholds
    last_alert_time := []
    alert_cooldown := 300
    alert_history := [] }

/-- `sample_alert_state` after a send for key `cpu` at time 1000. -/
def sample_state_after : AlertState :=
  { sample_alert_state with last_alert_time := [("cpu", 1000)] }

/-- Witness for C5: a send at 1000 with 300s cooldown, triggers at 1100 and
1200 suppressed, and a trigger at 1300 dispatched again. -/
theorem claim5_witness :
    run_triggers sample_state_after "cpu" [1100, 1200] =
      ([1100, 1200].map (fun _ => false), sample_state_after) ∧
    ((should_send_alert sample_state_after "cpu" 1300).1 = true ↔
      (sample_alert_state.alert_cooldown : ℚ) ≤ 1300 - 1000) :=
  claim5 sample_alert_state "cpu" 1000 [1100, 1200] 1300 sample_state_after
    (by
      unfold should_send_alert sample_state_after sample_alert_state
        sample_thresholds
      norm_num [alist_lookup, alist_insert])
    (by
      intro t ht
      fin_cases ht <;> norm_num [sample_alert_state])

/-! ## Theorems about `check_thresholds` (C6) -/

/-- The cooldown test of `_should_send_alert`, as a predicate on the state
it is asked about. -/
def cooldown_ready (st : AlertState) (key : String) (now : ℚ) : Prop :=
  (st.alert_cooldown : ℚ) ≤
    now - (alist_lookup st.last_alert_time key).getD 0

theorem should_send_alert_fst (st : AlertState) (key : String) (now : ℚ) :
    (should_send_alert st key now).1 = true ↔ cooldown_ready st key now := by
  unfold should_send_alert cooldown_ready
  by_cases h : (st.alert_cooldown : ℚ) ≤
      now - (alist_lookup st.last_alert_time key).getD 0
  · rw [if_pos h]
    simp [h]
  · rw [if_neg h]
    simp [h]

theorem should_send_alert_thresholds (st : AlertState) (key : String)
    (now : ℚ) : (should_send_alert st key now).2.thresholds = st.thresholds := by
  unfold should_send_alert
  split <;> rfl

theorem should_send_alert_cooldown (st : AlertState) (key : String) (now : ℚ) :
    (should_send_alert st key now).2.alert_cooldown = st.alert_cooldown := by
  unfold should_send_alert
  split <;> rfl

theorem should_send_alert_lookup_ne (st : AlertState) (key k' : String)
    (now : ℚ) (h : k' ≠ key) :
    alist_lookup (should_send_alert st key now).2.last_alert_time k' =
      alist_lookup st.last_alert_time k' := by
  unfold should_send_alert
  split
  · exact alist_lookup_insert_ne _ _ _ _ (Ne.symm h)
  · rfl

theorem cooldown_ready_congr (st' st : AlertState) (key : String) (now : ℚ)
    (hl : alist_lookup st'.last_alert_time key =
      alist_lookup st.last_alert_time key)
    (hc : st'.alert_cooldown = st.alert_cooldown) :
    cooldown_ready st' key now ↔ cooldown_ready st key now := by
  unfold cooldown_ready
  rw [hl, hc]

theorem check_metric_block_mem (st : AlertState) (value : Option ℚ) (thr : ℚ)
    (key : String) (make : ℚ → Alert) (now : ℚ) (a : Alert) :
    a ∈ (check_metric_block st value thr key make now).1 ↔
      ∃ v, value = some v ∧ thr < v ∧ cooldown_ready st key now ∧
        a = make v := by
  cases value with
  | none => simp [check_metric_block]
  | some v =>
      by_cases hthr : thr < v
      · have hfst := should_send_alert_fst st key now
        simp only [check_metric_block, if_pos hthr]
        by_cases hready : cooldown_ready st key now
        · rw [if_pos (hfst.mpr hready)]
          simp [hthr, hready]
        · have : (should_send_alert st key now).1 = false := by
            cases hb : (should_send_alert st key now).1
            · rfl
            · exact absurd (hfst.mp hb) hready
          rw [this]
          simp [hready]
      · simp [check_metric_block, hthr]

theorem check_metric_block_state (st : AlertState) (value : Option ℚ)
    (thr : ℚ) (key : String) (make : ℚ → Alert) (now : ℚ) :
    (check_metric_block st value thr key make now).2.thresholds =
        st.thresholds ∧
    (check_metric_block st value thr key make now).2.alert_cooldown =
        st.alert_cooldown ∧
    ∀ k', k' ≠ key →
      alist_lookup
          (check_metric_block st value thr key make now).2.last_alert_time k' =
        alist_lookup st.last_alert_time k' := by
  cases value with
  | none => simp [check_metric_block]
  | some v =>
      by_cases hthr : thr < v
      · simp only [check_metric_block, if_pos hthr]
        exact ⟨should_send_alert_thresholds st key now,
          should_send_alert_cooldown st key now,
          fun k' hk' => should_send_alert_lookup_ne st key k' now hk'⟩
      · simp [check_metric_block, hthr]

theorem disk_key_inj {mp mp' : String} (h : disk_key mp = disk_key mp') :
    mp = mp' :=
  string_append_left_cancel h

theorem disk_key_ne_cpu (mp : String) : disk_key mp ≠ "cpu" := by
  intro h
  have hd := congrArg String.data h
  rw [show disk_key mp = "disk_" ++ mp from rfl, string_append_data,
    show ("disk_").data = ['d', 'i', 's', 'k', '_'] from rfl,
    show ("cpu").data = ['c', 'p', 'u'] from rfl] at hd
  simp only [List.cons_append] at hd
  injection hd with h1 _
  exact absurd h1 (by decide)

theorem disk_key_ne_memory (mp : String) : disk_key mp ≠ "memory" := by
  intro h
  have hd := congrArg String.data h
  rw [show disk_key mp = "disk_" ++ mp from rfl, string_append_data,
    show ("disk_").data = ['d', 'i', 's', 'k', '_'] from rfl,
    show ("memory").data = ['m', 'e', 'm', 'o', 'r', 'y'] from rfl] at hd
  simp only [List.cons_append] at hd
  injection hd with h1 _
  exact absurd h1 (by decide)

theorem disk_key_ne_swap (mp : String) : disk_key mp ≠ "swap" := by
  intro h
  have hd := congrArg String.data h
  rw [show disk_key mp = "disk_" ++ mp from rfl, string_append_data,
    show ("disk_").data = ['d', 'i', 's', 'k', '_'] from rfl,
    show ("swap").data = ['s', 'w', 'a', 'p'] from rfl] at hd
  simp only [List.cons_append] at hd
  injection hd with h1 _
  exact absurd h1 (by decide)

theorem mk_disk_alert_mountpoint_inj {p q : DiskPartition}
    {thr thr' : Thresholds} (h : mk_disk_alert p thr = mk_disk_alert q thr') :
    p.mountpoint = q.mountpoint := by
  have hm := congrArg Alert.metric h
  simp only [mk_disk_alert] at hm
  exact string_sandwich_cancel "Disk Usage (" ")" _ _ hm

theorem check_disks_cons (st : AlertState) (q : DiskPartition)
    (rest : List DiskPartition) (now : ℚ) :
    check_disks st (q :: rest) now =
      if st.thresholds.disk_usage_percent < q.usage_percent then
        ((if (should_send_alert st (disk_key q.mountpoint) now).1 then
            [mk_disk_alert q st.thresholds] else []) ++
          (check_disks (should_send_alert st (disk_key q.mountpoint) now).2
            rest now).1,
         (check_disks (should_send_alert st (disk_key q.mountpoint) now).2
            rest now).2)
      else check_disks st rest now := rfl

theorem check_disks_shape (parts : List DiskPartition) (st : AlertState)
    (now : ℚ) (a : Alert) (ha : a ∈ (check_disks st parts now).1) :
    ∃ p, p ∈ parts ∧ a = mk_disk_alert p st.thresholds := by
  induction parts generalizing st with
  | nil => cases ha
  | cons q rest ih =>
      rw [check_disks_cons] at ha
      by_cases hq : st.thresholds.disk_usage_percent < q.usage_percent
      · rw [if_pos hq] at ha
        rcases List.mem_append.mp ha with hhead | htail
        · refine ⟨q, List.mem_cons_self q rest, ?_⟩
          cases hsend : (should_send_alert st (disk_key q.mountpoint) now).1 with
          | true =>
              rw [hsend] at hhead
              simpa using hhead
          | false =>
              rw [hsend] at hhead
              cases hhead
        · obtain ⟨p, hp, heq⟩ := ih _ htail
          rw [should_send_alert_thresholds] at heq
          exact ⟨p, List.mem_cons_of_mem q hp, heq⟩
      · rw [if_neg hq] at ha
        obtain ⟨p, hp, heq⟩ := ih _ ha
        exact ⟨p, List.mem_cons_of_mem q hp, heq⟩

theorem check_disks_state (parts : List DiskPartition) (st : AlertState)
    (now : ℚ) :
    (check_disks st parts now).2.thresholds = st.thresholds ∧
    (check_disks st parts now).2.alert_cooldown = st.alert_cooldown ∧
    ∀ k', (∀ p ∈ parts, k' ≠ disk_key p.mountpoint) →
      alist_lookup (check_disks st parts now).2.last_alert_time k' =
        alist_lookup st.last_alert_time k' := by
  induction parts generalizing st with
  | nil => exact ⟨rfl, rfl, fun k' _ => rfl⟩
  | cons q rest ih =>
      rw [check_disks_cons]
      by_cases hq : st.thresholds.disk_usage_percent < q.usage_percent
      · rw [if_pos hq]
        obtain ⟨ht, hc, hl⟩ :=
          ih (should_send_alert st (disk_key q.mountpoint) now).2
        refine ⟨?_, ?_, ?_⟩
        · rw [ht, should_send_alert_thresholds]
        · rw [hc, should_send_alert_cooldown]
        · intro k' hk'
          rw [hl k' (fun p hp => hk' p (List.mem_cons_of_mem q hp)),
            should_send_alert_lookup_ne st _ k' now
              (hk' q (List.mem_cons_self q rest))]
      · rw [if_neg hq]
        obtain ⟨ht, hc, hl⟩ := ih st
        exact ⟨ht, hc,
          fun k' hk' => hl k' (fun p hp => hk' p (List.mem_cons_of_mem q hp))⟩

theorem check_disks_mem (parts : List DiskPartition) (st : AlertState)
    (now : ℚ) (p : DiskPartition)
    (hnodup : (parts.map DiskPartition.mountpoint).Nodup) (hp : p ∈ parts) :
    mk_disk_alert p st.thresholds ∈ (check_disks st parts now).1 ↔
      st.thresholds.disk_usage_percent < p.usage_percent ∧
        cooldown_ready st (disk_key p.mountpoint) now := by
  induction parts generalizing st with
  | nil => cases hp
  | cons q rest ih =>
      simp only [List.map_cons, List.nodup_cons] at hnodup
      rcases List.mem_cons.mp hp with rfl | hmem
      · rw [check_disks_cons]
        by_cases hq : st.thresholds.disk_usage_percent < p.usage_percent
        · rw [if_pos hq]
          have hnotint : mk_disk_alert p st.thresholds ∉
              (check_disks (should_send_alert st (disk_key p.mountpoint)
                now).2 rest now).1 := by
            intro hmem'
            obtain ⟨p', hp', heq⟩ := check_disks_shape rest _ now _ hmem'
            have := mk_disk_alert_mountpoint_inj heq
            exact hnodup.1 (this ▸ List.mem_map_of_mem
              DiskPartition.mountpoint hp')
          simp only [List.mem_append]
          constructor
          · rintro (hhead | htail)
            · refine ⟨hq, ?_⟩
              cases hsend :
                  (should_send_alert st (disk_key p.mountpoint) now).1 with
              | true => exact (should_send_alert_fst st _ now).mp hsend
              | false =>
                  rw [hsend] at hhead
                  cases hhead
            · exact absurd htail hnotint
          · rintro ⟨_, hready⟩
            left
            rw [if_pos ((should_send_alert_fst st _ now).mpr hready)]
            exact List.mem_singleton.mpr rfl
        · rw [if_neg hq]
          constructor
          · intro hmem'
            obtain ⟨p', hp', heq⟩ := check_disks_shape rest _ now _ hmem'
            have := mk_disk_alert_mountpoint_inj heq
            exact absurd (this ▸ List.mem_map_of_mem
              DiskPartition.mountpoint hp') hnodup.1
          · rintro ⟨h1, _⟩
            exact absurd h1 hq
      · have hmpne : p.mountpoint ≠ q.mountpoint := by
          intro hmp
          exact hnodup.1 (hmp ▸ List.mem_map_of_mem
            DiskPartition.mountpoint hmem)
        rw [check_disks_cons]
        by_cases hq : st.thresholds.disk_usage_percent < q.usage_percent
        · rw [if_pos hq]
          have hkeyne : disk_key p.mountpoint ≠ disk_key q.mountpoint :=
            fun h => hmpne (disk_key_inj h)
          have hthr :
              (should_send_alert st (disk_key q.mountpoint) now).2.thresholds =
                st.thresholds := should_send_alert_thresholds st _ now
          have hih := ih (should_send_alert st (disk_key q.mountpoint) now).2
            hnodup.2 hmem
          rw [hthr] at hih
          have hready :
              cooldown_ready
                  (should_send_alert st (disk_key q.mountpoint) now).2
                  (disk_key p.mountpoint) now ↔
                cooldown_ready st (disk_key p.mountpoint) now :=
            cooldown_ready_congr _ _ _ _
              (should_send_alert_lookup_ne st _ _ now hkeyne)
              (should_send_alert_cooldown st _ now)
          rw [hready] at hih
          simp only [List.mem_append]
          constructor
          · rintro (hhead | htail)
            · exfalso
              cases hsend :
                  (should_send_alert st (disk_key q.mountpoint) now).1 with
              | true =>
                  rw [hsend] at hhead
                  have heq := List.mem_singleton.mp hhead
                  exact hmpne (mk_disk_alert_mountpoint_inj heq)
              | false =>
                  rw [hsend] at hhead
                  cases hhead
            · exact hih.mp htail
          · intro hcond
            right
            exact hih.mpr hcond
        · rw [if_neg hq]
          exact ih st hnodup.2 hmem

theorem check_cpu_mem (st : AlertState) (m : Metrics) (now : ℚ) (a : Alert) :
    a ∈ (check_cpu st m now).1 ↔
      ∃ v, m.cpu_usage_percent = some v ∧
        st.thresholds.cpu_usage_percent < v ∧ cooldown_ready st "cpu" now ∧
        a = mk_cpu_alert v st.thresholds :=
  check_metric_block_mem st m.cpu_usage_percent _ "cpu" _ now a

theorem check_memory_mem (st : AlertState) (m : Metrics) (now : ℚ)
    (a : Alert) :
    a ∈ (check_memory st m now).1 ↔
      ∃ v, m.memory_usage_percent = some v ∧
        st.thresholds.memory_usage_percent < v ∧
        cooldown_ready st "memory" now ∧ a = mk_memory_alert v st.thresholds :=
  check_metric_block_mem st m.memory_usage_percent _ "memory" _ now a

theorem check_swap_mem (st : AlertState) (m : Metrics) (now : ℚ) (a : Alert) :
    a ∈ (check_swap st m now).1 ↔
      ∃ v, m.memory_swap_percent = some v ∧
        st.thresholds.swap_usage_percent < v ∧ cooldown_ready st "swap" now ∧
        a = mk_swap_alert v st.thresholds :=
  check_metric_block_mem st m.memory_swap_percent _ "swap" _ now a

theorem check_cpu_state (st : AlertState) (m : Metrics) (now : ℚ) :
    (check_cpu st m now).2.thresholds = st.thresholds ∧
    (check_cpu st m now).2.alert_cooldown = st.alert_cooldown ∧
    ∀ k', k' ≠ "cpu" →
      alist_lookup (check_cpu st m now).2.last_alert_time k' =
        alist_lookup st.last_alert_time k' :=
  check_metric_block_state st m.cpu_usage_percent _ "cpu" _ now

theorem check_memory_state (st : AlertState) (m : Metrics) (now : ℚ) :
    (check_memory st m now).2.thresholds = st.thresholds ∧
    (check_memory st m now).2.alert_cooldown = st.alert_cooldown ∧
    ∀ k', k' ≠ "memory" →
      alist_lookup (check_memory st m now).2.last_alert_time k' =
        alist_lookup st.last_alert_time k' :=
  check_metric_block_state st m.memory_usage_percent _ "memory" _ now

theorem check_swap_state (st : AlertState) (m : Metrics) (now : ℚ) :
    (check_swap st m now).2.thresholds = st.thresholds ∧
    (check_swap st m now).2.alert_cooldown = st.alert_cooldown ∧
    ∀ k', k' ≠ "swap" →
      alist_lookup (check_swap st m now).2.last_alert_time k' =
        alist_lookup st.last_alert_time k' :=
  check_metric_block_state st m.memory_swap_percent _ "swap" _ now

/-- C6: `check_thresholds` emits an alert for a metric exactly when its value
is strictly greater than its configured threshold (equality emits nothing)
and its cooldown has elapsed; disk alerts use the cooldown key
`disk_<mountpoint>`, evaluated against the pre-call state per mountpoint, so
partitions are handled independently. -/
theorem claim6 (st : AlertState) (m : Metrics) (now : ℚ)
    (hnodup :
      ((m.disk_partitions.getD []).map DiskPartition.mountpoint).Nodup) :
    (∀ v, m.cpu_usage_percent = some v →
      (mk_cpu_alert v st.thresholds ∈ (check_thresholds st m now).1 ↔
        st.thresholds.cpu_usage_percent < v ∧ cooldown_ready st "cpu" now)) ∧
    (∀ v, m.memory_usage_percent = some v →
      (mk_memory_alert v st.thresholds ∈ (check_thresholds st m now).1 ↔
        st.thresholds.memory_usage_percent < v ∧
          cooldown_ready st "memory" now)) ∧
    (∀ v, m.memory_swap_percent = some v →
      (mk_swap_alert v st.thresholds ∈ (check_thresholds st m now).1 ↔
        st.thresholds.swap_usage_percent < v ∧
          cooldown_ready st "swap" now)) ∧
    (∀ p ∈ m.disk_partitions.getD [],
      (mk_disk_alert p st.thresholds ∈ (check_thresholds st m now).1 ↔
        st.thresholds.disk_usage_percent < p.usage_percent ∧
          cooldown_ready st (disk_key p.mountpoint) now)) := by
  obtain ⟨ht₁, hc₁, hl₁⟩ := check_cpu_state st m now
  obtain ⟨ht₂, hc₂, hl₂⟩ := check_memory_state (check_cpu st m now).2 m now
  obtain ⟨ht₃, hc₃, hl₃⟩ :=
    check_swap_state (check_memory (check_cpu st m now).2 m now).2 m now
  have hA : (check_thresholds st m now).1 =
      (check_cpu st m now).1 ++
        (check_memory (check_cpu st m now).2 m now).1 ++
        (check_swap (check_memory (check_cpu st m now).2 m now).2 m now).1 ++
        (check_disks
          (check_swap (check_memory (check_cpu st m now).2 m now).2 m now).2
          (m.disk_partitions.getD []) now).1 := rfl
  refine ⟨?_, ?_, ?_, ?_⟩
  · intro v hv
    rw [hA]
    simp only [List.mem_append]
    have h1 : mk_cpu_alert v st.thresholds ∈ (check_cpu st m now).1 ↔
        st.thresholds.cpu_usage_percent < v ∧ cooldown_ready st "cpu" now := by
      rw [check_cpu_mem]
      constructor
      · rintro ⟨v', hv', hthr, hready, heq⟩
        rw [hv, Option.some_inj] at hv'
        subst hv'
        exact ⟨hthr, hready⟩
      · rintro ⟨hthr, hready⟩
        exact ⟨v, hv, hthr, hready, rfl⟩
    have h2 : mk_cpu_alert v st.thresholds ∉
        (check_memory (check_cpu st m now).2 m now).1 := by
      rw [check_memory_mem]
      rintro ⟨v', -, -, -, heq⟩
      have hk := congrArg Alert.kind heq
      simp only [mk_cpu_alert, mk_memory_alert] at hk
      exact absurd hk (by decide)
    have h3 : mk_cpu_alert v st.thresholds ∉
        (check_swap (check_memory (check_cpu st m now).2 m now).2 m now).1 := by
      rw [check_swap_mem]
      rintro ⟨v', -, -, -, heq⟩
      have hk := congrArg Alert.kind heq
      simp only [mk_cpu_alert, mk_swap_alert] at hk
      exact absurd hk (by decide)
    have h4 : mk_cpu_alert v st.thresholds ∉
        (check_disks
          (check_swap (check_memory (check_cpu st m now).2 m now).2 m now).2
          (m.disk_partitions.getD []) now).1 := by
      intro hmem
      obtain ⟨p', -, heq⟩ := check_disks_shape _ _ now _ hmem
      have hk := congrArg Alert.kind heq
      simp only [mk_cpu_alert, mk_disk_alert] at hk
      exact absurd hk (by decide)
    constructor
    · rintro (((ha | hb) | hc) | hd)
      · exact h1.mp ha
      · exact absurd hb h2
      · exact absurd hc h3
      · exact absurd hd h4
    · intro hcond
      exact Or.inl (Or.inl (Or.inl (h1.mpr hcond)))
  · intro v hv
    rw [hA]
    simp only [List.mem_append]
    have hready₁ : cooldown_ready (check_cpu st m now).2 "memory" now ↔
        cooldown_ready st "memory" now :=
      cooldown_ready_congr _ _ _ _ (hl₁ "memory" (by decide)) hc₁
    have h2 : mk_memory_alert v st.thresholds ∈
        (check_memory (check_cpu st m now).2 m now).1 ↔
        st.thresholds.memory_usage_percent < v ∧
          cooldown_ready st "memory" now := by
      rw [check_memory_mem, ht₁]
      constructor
      · rintro ⟨v', hv', hthr, hready, heq⟩
        rw [hv, Option.some_inj] at hv'
        subst hv'
        exact ⟨hthr, hready₁.mp hready⟩
      · rintro ⟨hthr, hready⟩
        exact ⟨v, hv, hthr, hready₁.mpr hready, rfl⟩
    have h1 : mk_memory_alert v st.thresholds ∉ (check_cpu st m now).1 := by
      rw [check_cpu_mem]
      rintro ⟨v', -, -, -, heq⟩
      have hk := congrArg Alert.kind heq
      simp only [mk_memory_alert, mk_cpu_alert] at hk
      exact absurd hk (by decide)
    have h3 : mk_memory_alert v st.thresholds ∉
        (check_swap (check_memory (check_cpu st m now).2 m now).2 m now).1 := by
      rw [check_swap_mem]
      rintro ⟨v', -, -, -, heq⟩
      have hk := congrArg Alert.kind heq
      simp only [mk_memory_alert, mk_swap_alert] at hk
      exact absurd hk (by decide)
    have h4 : mk_memory_alert v st.thresholds ∉
        (check_disks
          (check_swap (check_memory (check_cpu st m now).2 m now).2 m now).2
          (m.disk_partitions.getD []) now).1 := by
      intro hmem
      obtain ⟨p', -, heq⟩ := check_disks_shape _ _ now _ hmem
      have hk := congrArg Alert.kind heq
      simp only [mk_memory_alert, mk_disk_alert] at hk
      exact absurd hk (by decide)
    constructor
    · rintro (((ha | hb) | hc) | hd)
      · exact absurd ha h1
      · exact h2.mp hb
      · exact absurd hc h3
      · exact absurd hd h4
    · intro hcond
      exact Or.inl (Or.inl (Or.inr (h2.mpr hcond)))
  · intro v hv
    rw [hA]
    simp only [List.mem_append]
    have hready₂ :
        cooldown_ready (check_memory (check_cpu st m now).2 m now).2 "swap"
            now ↔
          cooldown_ready st "swap" now := by
      refine cooldown_ready_congr _ _ _ _ ?_ ?_
      · rw [hl₂ "swap" (by decide), hl₁ "swap" (by decide)]
      · rw [hc₂, hc₁]
    have h3 : mk_swap_alert v st.thresholds ∈
        (check_swap (check_memory (check_cpu st m now).2 m now).2 m now).1 ↔
        st.thresholds.swap_usage_percent < v ∧
          cooldown_ready st "swap" now := by
      rw [check_swap_mem, ht₂, ht₁]
      constructor
      · rintro ⟨v', hv', hthr, hready, heq⟩
        rw [hv, Option.some_inj] at hv'
        subst hv'
        exact ⟨hthr, hready₂.mp hready⟩
      · rintro ⟨hthr, hready⟩
        exact ⟨v, hv, hthr, hready₂.mpr hready, rfl⟩
    have h1 : mk_swap_alert v st.thresholds ∉ (check_cpu st m now).1 := by
      rw [check_cpu_mem]
      rintro ⟨v', -, -, -, heq⟩
      have hk := congrArg Alert.kind heq
      simp only [mk_swap_alert, mk_cpu_alert] at hk
      exact absurd hk (by decide)
    have h2 : mk_swap_alert v st.thresholds ∉
        (check_memory (check_cpu st m now).2 m now).1 := by
      rw [check_memory_mem]
      rintro ⟨v', -, -, -, heq⟩
      have hk := congrArg Alert.kind heq
      simp only [mk_swap_alert, mk_memory_alert] at hk
      exact absurd hk (by decide)
    have h4 : mk_swap_alert v st.thresholds ∉
        (check_disks
          (check_swap (check_memory (check_cpu st m now).2 m now).2 m now).2
          (m.disk_partitions.getD []) now).1 := by
      intro hmem
      obtain ⟨p', -, heq⟩ := check_disks_shape _ _ now _ hmem
      have hk := congrArg Alert.kind heq
      simp only [mk_swap_alert, mk_disk_alert] at hk
      exact absurd hk (by decide)
    constructor
    · rintro (((ha | hb) | hc) | hd)
      · exact absurd ha h1
      · exact absurd hb h2
      · exact h3.mp hc
      · exact absurd hd h4
    · intro hcond
      exact Or.inl (Or.inr (h3.mpr hcond))
  · intro p hp
    rw [hA]
    simp only [List.mem_append]
    have hthr₃ :
        (check_swap (check_memory (check_cpu st m now).2 m now).2 m
            now).2.thresholds = st.thresholds := by
      rw [ht₃, ht₂, ht₁]
    have hready₃ :
        cooldown_ready
            (check_swap (check_memory (check_cpu st m now).2 m now).2 m now).2
            (disk_key p.mountpoint) now ↔
          cooldown_ready st (disk_key p.mountpoint) now := by
      refine cooldown_ready_congr _ _ _ _ ?_ ?_
      · rw [hl₃ _ (disk_key_ne_swap p.mountpoint),
          hl₂ _ (disk_key_ne_memory p.mountpoint),
          hl₁ _ (disk_key_ne_cpu p.mountpoint)]
      · rw [hc₃, hc₂, hc₁]
    have h4 : mk_disk_alert p st.thresholds ∈
        (check_disks
          (check_swap (check_memory (check_cpu st m now).2 m now).2 m now).2
          (m.disk_partitions.getD []) now).1 ↔
        st.thresholds.disk_usage_percent < p.usage_percent ∧
          cooldown_ready st (disk_key p.mountpoint) now := by
      have hmem := check_disks_mem (m.disk_partitions.getD [])
        (check_swap (check_memory (check_cpu st m now).2 m now).2 m now).2
        now p hnodup hp
      rw [hthr₃] at hmem
      rw [hmem, hready₃]
    have h1 : mk_disk_alert p st.thresholds ∉ (check_cpu st m now).1 := by
      rw [check_cpu_mem]
      rintro ⟨v', -, -, -, heq⟩
      have hk := congrArg Alert.kind heq
      simp only [mk_disk_alert, mk_cpu_alert] at hk
      exact absurd hk (by decide)
    have h2 : mk_disk_alert p st.thresholds ∉
        (check_memory (check_cpu st m now).2 m now).1 := by
      rw [check_memory_mem]
      rintro ⟨v', -, -, -, heq⟩
      have hk := congrArg Alert.kind heq
      simp only [mk_disk_alert, mk_memory_alert] at hk
      exact absurd hk (by decide)
    have h3 : mk_disk_alert p st.thresholds ∉
        (check_swap (check_memory (check_cpu st m now).2 m now).2 m now).1 := by
      rw [check_swap_mem]
      rintro ⟨v', -, -, -, heq⟩
      have hk := congrArg Alert.kind heq
      simp only [mk_disk_alert, mk_swap_alert] at hk
      exact absurd hk (by decide)
    constructor
    · rintro (((ha | hb) | hc) | hd)
      · exact absurd ha h1
      · exact absurd hb h2
      · exact absurd hc h3
      · exact h4.mp hd
    · intro hcond
      exact Or.inr (h4.mpr hcond)

def sample_metrics : Metrics :=
  { cpu_usage_percent := some 95
    memory_usage_percent := none
    memory_swap_percent := none
    disk_partitions := some [{ mountpoint := "/", usage_percent := 95 }] }

/-- Witness for C6: the CPU clause at a concrete snapshot with one disk
partition. -/
theorem claim6_witness :
    mk_cpu_alert 95 sample_alert_state.thresholds ∈
        (check_thresholds sample_alert_state sample_metrics 1000).1 ↔
      sample_alert_state.thresholds.cpu_usage_percent < 95 ∧
        cooldown_ready sample_alert_state "cpu" 1000 :=
  (claim6 sample_alert_state sample_metrics 1000 (by decide)).1 95 rfl

end ASL
